import Mathlib

/-!
Verification development for a Flask-based mental-health assistant
(`app/app.py`).  The helpers (`validate_password`, `rate_limit_check`,
`sanitize_input`), the session loader (`user_loader`), the `login` route
and the `ask` route are shallowly embedded as Lean functions.  Text is
modelled as `List Char`; collaborator calls that may raise Python
exceptions are modelled with `Except Exn`; the `mongo` document store is
modelled as explicit lists of records threaded through each operation;
`logger.error` calls are modelled as an output list of `LogEntry`.
-/

namespace MHA

/-- A raised Python exception, reduced to its type name and message
(these are what the handlers log via `type(e).__name__` and `e`). -/
structure Exn where
  kind : String
  msg : String
deriving DecidableEq, Repr

/-- One `logger.error` emission relevant to the embedded code paths. -/
inductive LogEntry where
  | userLoadError (e : Exn)
  | rateLimitError (e : Exn)
  | userDataFetchError (kind msg : String)
  | geminiMissingKey
  | geminiError (kind msg : String)
deriving DecidableEq, Repr

/-! ### Sanitizer: `sanitize_input` (app.py lines 136-139)

The regex substitution deletes every occurrence of the four characters
`<`, `>`, double quote, single quote, and then the result is trimmed of
leading and trailing whitespace.  The trim is modelled with
`List.dropWhile` on the left and `List.rdropWhile` on the right. -/

/-- The character class `[<>"\x27]` of the regex: `<`, `>`, the double
quote (code 34) and the single quote (code 39). -/
def isBadChar (c : Char) : Bool :=
  c == '<' || c == '>' || c == Char.ofNat 34 || c == Char.ofNat 39

/-- The Python string strip operation: drop whitespace from both ends. -/
def strip (l : List Char) : List Char :=
  List.rdropWhile Char.isWhitespace (List.dropWhile Char.isWhitespace l)

/-- The substitution-then-strip body of `sanitize_input`. -/
def sanitizeCore (text : List Char) : List Char :=
  strip (text.filter (fun c => !isBadChar c))

/-- `sanitize_input` (app.py 136-139): falsy (empty) input short-circuits
to the empty string, otherwise delete the four characters and strip. -/
def sanitize_input (text : List Char) : List Char :=
  if text = [] then [] else sanitizeCore text

/-- The function `sanitize_input` applied to an optional value: the
falsy-input guard in the code also treats an absent argument as falsy. -/
def sanitize_input_opt : Option (List Char) → List Char
  | none => []
  | some t => sanitize_input t

/-! ### Password policy: `validate_password` (app.py lines 113-120) -/

/-- `validate_password` (app.py 113-120): length at least 8, at least one
ASCII letter (`re.search r"[A-Za-z]"`), at least one ASCII digit
(`re.search r"[0-9]"`), checked in that order, first failure wins. -/
def validate_password (p : List Char) : Bool × String :=
  if p.length < 8 then
    (false, "Password must be at least 8 characters long")
  else if !(p.any Char.isAlpha) then
    (false, "Password must contain at least one letter")
  else if !(p.any Char.isDigit) then
    (false, "Password must contain at least one number")
  else
    (true, "Password is valid")

/-! ### Lemmas about `strip` and `sanitize_input` -/

theorem dropWhile_rdropWhile_dropWhile (p : Char → Bool) (l : List Char) :
    List.dropWhile p (List.rdropWhile p (List.dropWhile p l)) =
      List.rdropWhile p (List.dropWhile p l) := by
  obtain ⟨t, ht⟩ := List.rdropWhile_prefix p (List.dropWhile p l)
  cases hn : List.rdropWhile p (List.dropWhile p l) with
  | nil => rfl
  | cons c cs =>
    have hm : List.dropWhile p l = c :: (cs ++ t) := by
      rw [← ht, hn]; simp
    have hne : List.dropWhile p l ≠ [] := by rw [hm]; simp
    have hc : p ((List.dropWhile p l).head hne) = false :=
      List.head_dropWhile_not p l hne
    have hcc : (List.dropWhile p l).head hne = c := by
      simp [hm]
    rw [hcc] at hc
    simp [List.dropWhile_cons, hc]

theorem strip_dropWhile (l : List Char) :
    List.dropWhile Char.isWhitespace (strip l) = strip l :=
  dropWhile_rdropWhile_dropWhile Char.isWhitespace l

theorem strip_rdropWhile (l : List Char) :
    List.rdropWhile Char.isWhitespace (strip l) = strip l :=
  List.rdropWhile_idempotent Char.isWhitespace (List.dropWhile Char.isWhitespace l)

theorem strip_idem (l : List Char) : strip (strip l) = strip l := by
  have h : strip (strip l) =
      List.rdropWhile Char.isWhitespace
        (List.dropWhile Char.isWhitespace (strip l)) := rfl
  rw [h, strip_dropWhile, strip_rdropWhile]

theorem strip_sublist (l : List Char) : (strip l).Sublist l := by
  have h1 := List.rdropWhile_prefix Char.isWhitespace (List.dropWhile Char.isWhitespace l)
  have h2 := List.dropWhile_suffix (l := l) Char.isWhitespace
  exact h1.sublist.trans h2.sublist

theorem sanitize_input_eq_core (t : List Char) :
    sanitize_input t = sanitizeCore t := by
  rw [sanitize_input]
  split
  · rename_i h
    subst h
    rfl
  · rfl

theorem sanitizeCore_mem_not_bad (t : List Char) (c : Char)
    (hc : c ∈ sanitizeCore t) : isBadChar c = false := by
  have hmem : c ∈ t.filter (fun c => !isBadChar c) :=
    (strip_sublist _).subset hc
  have := (List.mem_filter.mp hmem).2
  simpa using this

theorem sanitize_input_mem_not_bad (t : List Char) (c : Char)
    (hc : c ∈ sanitize_input t) : isBadChar c = false := by
  rw [sanitize_input_eq_core] at hc
  exact sanitizeCore_mem_not_bad t c hc

theorem sanitizeCore_idem (t : List Char) :
    sanitizeCore (sanitizeCore t) = sanitizeCore t := by
  have hfilter : (sanitizeCore t).filter (fun c => !isBadChar c) = sanitizeCore t := by
    apply List.filter_eq_self.mpr
    intro c hc
    simp [sanitizeCore_mem_not_bad t c hc]
  have h : sanitizeCore (sanitizeCore t) = strip ((sanitizeCore t).filter (fun c => !isBadChar c)) := rfl
  rw [h, hfilter]
  have h2 : strip (sanitizeCore t) = strip (strip (t.filter (fun c => !isBadChar c))) := rfl
  rw [h2, strip_idem]
  rfl

/-! ### Claim theorems for the sanitizer and the password policy -/

/-- C5: every password shorter than 8 characters is rejected with the
"too short" reason regardless of its content, and the three rules are
checked in order (length, then letter, then digit), the first failing
rule determining the returned reason. -/
theorem validate_password_spec (p : List Char) :
    (p.length < 8 →
      validate_password p = (false, "Password must be at least 8 characters long"))
    ∧ (8 ≤ p.length → p.any Char.isAlpha = false →
      validate_password p = (false, "Password must contain at least one letter"))
    ∧ (8 ≤ p.length → p.any Char.isAlpha = true → p.any Char.isDigit = false →
      validate_password p = (false, "Password must contain at least one number"))
    ∧ (8 ≤ p.length → p.any Char.isAlpha = true → p.any Char.isDigit = true →
      validate_password p = (true, "Password is valid")) := by
  refine ⟨?_, ?_, ?_, ?_⟩
  · intro h
    simp [validate_password, h]
  · intro h1 h2
    simp [validate_password, Nat.not_lt.mpr h1, h2]
  · intro h1 h2 h3
    simp [validate_password, Nat.not_lt.mpr h1, h2, h3]
  · intro h1 h2 h3
    simp [validate_password, Nat.not_lt.mpr h1, h2, h3]

theorem validate_password_spec_witness :
    validate_password ("a1".data) =
      (false, "Password must be at least 8 characters long") :=
  (validate_password_spec ("a1".data)).1 (by decide)

/-- C6: the sanitizer output contains none of the four dangerous
characters, is a sublist of the input (the relative order of all
remaining characters is preserved), is a fixpoint of whitespace trimming
on both ends (trimmed of leading and trailing whitespace), and empty or
absent input yields the empty string. -/
theorem sanitize_input_spec (t : List Char) :
    (∀ c ∈ sanitize_input t, isBadChar c = false)
    ∧ (sanitize_input t).Sublist t
    ∧ List.dropWhile Char.isWhitespace (sanitize_input t) = sanitize_input t
    ∧ List.rdropWhile Char.isWhitespace (sanitize_input t) = sanitize_input t
    ∧ sanitize_input [] = []
    ∧ sanitize_input_opt none = [] := by
  refine ⟨fun c hc => sanitize_input_mem_not_bad t c hc, ?_, ?_, ?_, rfl, rfl⟩
  · rw [sanitize_input_eq_core]
    exact (strip_sublist _).trans (List.filter_sublist t)
  · rw [sanitize_input_eq_core]
    exact strip_dropWhile _
  · rw [sanitize_input_eq_core]
    exact strip_rdropWhile _

theorem sanitize_input_spec_witness :
    isBadChar 'a' = false ∧ (sanitize_input ("  a<b  ".data)).Sublist ("  a<b  ".data) := by
  refine ⟨(sanitize_input_spec ("  a<b  ".data)).1 'a' ?_, (sanitize_input_spec ("  a<b  ".data)).2.1⟩
  decide

/-- C9: the sanitizer is idempotent. -/
theorem sanitize_input_idempotent (t : List Char) :
    sanitize_input (sanitize_input t) = sanitize_input t := by
  rw [sanitize_input_eq_core (sanitize_input t), sanitize_input_eq_core t]
  exact sanitizeCore_idem t

/-! ### Rate limiter: `rate_limit_check` (app.py lines 122-134)

The `qa_history` collection is modelled as a list of `QARecord`; the
`count_documents` query counts records of the given user whose timestamp
is at least `now - window`.  The collaborator access may raise, which is
modelled by running the check against an `Except Exn` value: on error
the check logs and returns `true` (fail-open). -/

/-- One document of the `qa_history` collection. -/
structure QARecord where
  user_id : String
  username : String
  question : List Char
  answer : List Char
  timestamp : Int
deriving DecidableEq, Repr

/-- The `count_documents` query of `rate_limit_check`: records of
`user_id` with `timestamp` at least `windowStart`. -/
def countDocuments (docs : List QARecord) (uid : String) (windowStart : Int) : Nat :=
  (docs.filter (fun r => r.user_id == uid && decide (windowStart ≤ r.timestamp))).length

/-- `rate_limit_check` (app.py 122-134): allow up to `limit` questions
per `window` seconds.  `db` is the outcome of reaching the collection:
on an exception the failure is logged and the user is not blocked. -/
def rate_limit_check (db : Except Exn (List QARecord)) (user_id : String)
    (limit : Nat) (window : Int) (now : Int) : Bool × List LogEntry :=
  match db with
  | Except.ok docs =>
      (decide (countDocuments docs user_id (now - window) < limit), [])
  | Except.error e => (true, [LogEntry.rateLimitError e])

/-! ### Session loader: `user_loader` (app.py lines 100-108) -/

/-- A document of the `users` collection. -/
structure StoredUser where
  id : String
  username : List Char
  passwordHash : String
  isActive : Bool
deriving DecidableEq, Repr

/-- The in-memory `User` model (app.py 95-98). -/
structure User where
  id : String
  username : List Char
deriving DecidableEq, Repr

/-- `user_loader` (app.py 100-108): `lookup` is the outcome of
`ObjectId` parsing plus `users.find_one` (either a raised exception, no
document, or a document).  A missing document or any exception yields
`none` (anonymous) after logging; nothing propagates. -/
def user_loader (lookup : Except Exn (Option StoredUser)) : Option User × List LogEntry :=
  match lookup with
  | Except.ok (some u) => (some ⟨u.id, u.username⟩, [])
  | Except.ok none => (none, [])
  | Except.error e => (none, [LogEntry.userLoadError e])

/-! ### Login route: `login` (app.py lines 248-270)

Only the credential-checking policy is embedded (the form is assumed
validated).  The query `find_one(username, is_active=True)` is modelled
by `findActiveUser`; the password-hash verification is an abstract
collaborator function `checkHash`. -/

/-- The Python `str.lower()` normalisation applied to the username. -/
def lowerL (l : List Char) : List Char := l.map Char.toLower

/-- The `users.find_one` query of `login`: first document whose username
matches and whose active flag is set. -/
def findActiveUser (users : List StoredUser) (uname : List Char) : Option StoredUser :=
  users.find? (fun u => u.username == uname && u.isActive)

/-- Outcome of one validated login attempt. -/
inductive LoginOutcome where
  | success (uid : String) (uname : List Char)
  | invalidCredentials
  | loginError
deriving DecidableEq, Repr

/-- The fixed generic flash message of the failed-credentials branch. -/
def invalidCredentialsMessage : String := "Invalid username or password."

/-- The user-facing flash message of each login outcome. -/
def loginFlash : LoginOutcome → Option String
  | LoginOutcome.success _ _ => none
  | LoginOutcome.invalidCredentials => some invalidCredentialsMessage
  | LoginOutcome.loginError => some "An error occurred during login. Please try again."

/-- `login` (app.py 248-270): sanitize and lower-case the submitted
username, look up an active user with that name, verify the password
hash; the same `invalidCredentials` outcome covers an unknown username,
an inactive account and a wrong password.  A raised exception from the
store is the separate `loginError` branch. -/
def login (db : Except Exn (List StoredUser)) (checkHash : String → List Char → Bool)
    (rawUsername password : List Char) : LoginOutcome :=
  let username := sanitize_input (lowerL rawUsername)
  match db with
  | Except.error _ => LoginOutcome.loginError
  | Except.ok users =>
    match findActiveUser users username with
    | some u =>
        if checkHash u.passwordHash password then LoginOutcome.success u.id u.username
        else LoginOutcome.invalidCredentials
    | none => LoginOutcome.invalidCredentials

/-- A validated login attempt fails on bad credentials: either no active
user carries the submitted (sanitized, lower-cased) username — which
covers both an unknown and an inactive account — or one does and the
password hash does not match. -/
def authFails (users : List StoredUser) (checkHash : String → List Char → Bool)
    (rawUsername password : List Char) : Prop :=
  findActiveUser users (sanitize_input (lowerL rawUsername)) = none
  ∨ ∃ u, findActiveUser users (sanitize_input (lowerL rawUsername)) = some u
      ∧ checkHash u.passwordHash password = false

/-! ### Claim theorems for the rate limiter, loader and login -/

/-- C1: with the counting collaborator available, a user with exactly
`limit` QA records inside the trailing window is denied (strict
less-than), and with `limit - 1` such records is allowed. -/
theorem rate_limit_check_boundary (docs : List QARecord) (uid : String)
    (limit : Nat) (window now : Int) :
    (countDocuments docs uid (now - window) = limit →
      (rate_limit_check (Except.ok docs) uid limit window now).1 = false)
    ∧ (countDocuments docs uid (now - window) = limit - 1 → 1 ≤ limit →
      (rate_limit_check (Except.ok docs) uid limit window now).1 = true) := by
  constructor
  · intro h
    simp [rate_limit_check, h]
  · intro h hl
    simp [rate_limit_check, h]
    omega

theorem rate_limit_check_boundary_witness :
    (rate_limit_check
      (Except.ok [⟨"u", "u", [], [], 9000⟩, ⟨"u", "u", [], [], 9500⟩])
      "u" 2 3600 10000).1 = false
    ∧ (rate_limit_check (Except.ok [⟨"u", "u", [], [], 9000⟩])
      "u" 2 3600 10000).1 = true :=
  ⟨(rate_limit_check_boundary
      [⟨"u", "u", [], [], 9000⟩, ⟨"u", "u", [], [], 9500⟩] "u" 2 3600 10000).1
      (by decide),
   (rate_limit_check_boundary [⟨"u", "u", [], [], 9000⟩] "u" 2 3600 10000).2
      (by decide) (by decide)⟩

/-- C2: if reaching the counting collaborator raises, the rate-limit
check returns true (fail-open) for every user, limit and window, and the
failure is logged. -/
theorem rate_limit_check_fail_open (e : Exn) (uid : String) (limit : Nat)
    (window now : Int) :
    rate_limit_check (Except.error e) uid limit window now =
      (true, [LogEntry.rateLimitError e]) := rfl

/-- C7: session-identity resolution is a total function; whenever the
backing record is missing or the lookup raises, it returns the anonymous
outcome (no user) instead of propagating the error. -/
theorem user_loader_anonymous (lookup : Except Exn (Option StoredUser))
    (h : lookup = Except.ok none ∨ ∃ e, lookup = Except.error e) :
    (user_loader lookup).1 = none := by
  rcases h with h | ⟨e, h⟩ <;> subst h <;> rfl

theorem user_loader_anonymous_witness :
    (user_loader (Except.ok none)).1 = none :=
  user_loader_anonymous (Except.ok none) (Or.inl rfl)

/-- C8: any two validated login attempts that fail on bad credentials —
unknown username, inactive account, or mismatching password hash —
produce the same outcome, whose user-facing message is the fixed generic
one, so an observer of the message cannot distinguish the causes. -/
theorem login_failure_indistinguishable
    (users1 users2 : List StoredUser)
    (ch1 ch2 : String → List Char → Bool)
    (un1 pw1 un2 pw2 : List Char)
    (h1 : authFails users1 ch1 un1 pw1)
    (h2 : authFails users2 ch2 un2 pw2) :
    login (Except.ok users1) ch1 un1 pw1 = login (Except.ok users2) ch2 un2 pw2
    ∧ loginFlash (login (Except.ok users1) ch1 un1 pw1) =
        some invalidCredentialsMessage := by
  have key : ∀ (users : List StoredUser) (ch : String → List Char → Bool)
      (un pw : List Char), authFails users ch un pw →
      login (Except.ok users) ch un pw = LoginOutcome.invalidCredentials := by
    intro users ch un pw h
    rcases h with h | ⟨u, hu, hch⟩
    · simp [login, h]
    · simp [login, hu, hch]
  rw [key users1 ch1 un1 pw1 h1, key users2 ch2 un2 pw2 h2]
  exact ⟨rfl, rfl⟩

theorem login_failure_indistinguishable_witness :
    login (Except.ok []) (fun _ _ => false) ("Alice".data) ("pw".data) =
      login (Except.ok [⟨"i2", "bob".data, "h", true⟩]) (fun _ _ => false)
        ("Bob".data) ("pw".data)
    ∧ loginFlash (login (Except.ok []) (fun _ _ => false) ("Alice".data) ("pw".data)) =
        some invalidCredentialsMessage :=
  login_failure_indistinguishable [] [⟨"i2", "bob".data, "h", true⟩]
    (fun _ _ => false) (fun _ _ => false)
    ("Alice".data) ("pw".data) ("Bob".data) ("pw".data)
    (Or.inl (by decide))
    (Or.inr ⟨⟨"i2", "bob".data, "h", true⟩, by decide, rfl⟩)

/-! ### Ask route: `ask` (app.py lines 334-409)

The validated-POST body of the route is embedded.  The collaborators of
one invocation are collected in `AskEnv`: the current contents of the
`qa_history` collection, whether the `count_documents` call raises,
the outcome of the `user_data.find_one` call, whether an API key is
configured, the generative-AI call (a function of the prompt returning
either the response text or a raised exception), and whether the
`insert_one` call raises.  The result carries the rendered outcome, the
`qa_history` contents afterwards, the logged errors, and the number of
generative-AI invocations attempted. -/

/-- A document of the `user_data` collection (fields read by `ask`). -/
structure UserData where
  age : Option Nat
  goals : List (List Char)
  stress : List (List Char)
  therapy : Bool
  meditation : Bool
deriving DecidableEq, Repr

/-- The empty dict that `ask` falls back to when the profile lookup
finds nothing or raises. -/
def emptyUserData : UserData := ⟨none, [], [], false, false⟩

/-- Collaborator outcomes fixed for one invocation of `ask`. -/
structure AskEnv where
  hist : List QARecord
  countFails : Option Exn
  userData : Except Exn (Option UserData)
  apiKeyPresent : Bool
  gemini : List Char → Except Exn (List Char)
  insertFails : Option Exn
  now : Int

/-- Flash messages emitted by the embedded branches of `ask`. -/
inductive Flash where
  | rateLimitWarning
  | missingKeyError
  | serviceUnavailableError
deriving DecidableEq, Repr

/-- The page rendered at the end of one validated `ask` invocation. -/
inductive Outcome where
  | renderAsk (flash : Flash)
  | renderResponse (question answer : List Char)
deriving DecidableEq, Repr

/-- Result of one validated `ask` invocation. -/
structure AskResult where
  outcome : Outcome
  hist : List QARecord
  log : List LogEntry
  aiCalls : Nat
deriving DecidableEq, Repr

/-- The `qa_history` access made by the rate-limit check inside `ask`:
the collection contents, unless the counting call raises. -/
def dbOf (env : AskEnv) : Except Exn (List QARecord) :=
  match env.countFails with
  | some e => Except.error e
  | none => Except.ok env.hist

/-- The `user_data.find_one(...) or ` empty-dict fallback of `ask`
(app.py 347-351), together with the error it logs when the fetch
raises. -/
def userDataOf (env : AskEnv) : UserData × List LogEntry :=
  match env.userData with
  | Except.ok (some d) => (d, [])
  | Except.ok none => (emptyUserData, [])
  | Except.error e => (emptyUserData, [LogEntry.userDataFetchError e.kind e.msg])

/-- Separator-joined concatenation, the Python string join. -/
def joinSep (sep : List Char) : List (List Char) → List Char
  | [] => []
  | [x] => x
  | x :: y :: xs => x ++ sep ++ joinSep sep (y :: xs)

/-- Truthiness of the `age` field in the context builder. -/
def truthyAge : Option Nat → Bool
  | none => false
  | some a => a != 0

/-- The `parts` list assembled from the profile (app.py 353-366). -/
def contextParts (ud : UserData) : List (List Char) :=
  (if truthyAge ud.age then
    ["Age: ".data ++ (toString (ud.age.getD 0)).data ++ ".".data] else [])
  ++ (if ud.goals = [] then [] else
    ["Mental Health Goals: ".data ++ joinSep (", ".data) ud.goals ++ ".".data])
  ++ (if ud.stress = [] then [] else
    ["Stress Level: ".data ++ joinSep (", ".data) ud.stress ++ ".".data])
  ++ (if ud.therapy then ["Attends therapy or counseling.".data] else [])
  ++ (if ud.meditation then ["Practices meditation.".data] else [])

/-- The `user_context` string (app.py 367). -/
def userContext (ud : UserData) : List Char :=
  if contextParts ud = [] then "No additional context available.".data
  else joinSep (" ".data) (contextParts ud)

/-- The fixed instructional prompt (app.py 369-377). -/
def promptOf (ud : UserData) (question : List Char) : List Char :=
  "You are a compassionate and professional mental health advisor. ".data
  ++ "Provide supportive, evidence-based guidance while being empathetic and non-judgmental. ".data
  ++ "Always recommend professional help for serious mental health concerns.\n\n".data
  ++ "User context: ".data ++ userContext ud ++ "\n\n".data
  ++ "Question: \"".data ++ question ++ "\"\n\n".data
  ++ "Please provide a thoughtful, empathetic response with actionable advice. ".data
  ++ "Keep your response focused and helpful, around 150-200 words.".data

/-- The prompt sent to the AI collaborator by one `ask` invocation. -/
def askPrompt (env : AskEnv) (rawQ : List Char) : List Char :=
  promptOf (userDataOf env).1 (sanitize_input rawQ)

/-- `ask` (app.py 334-409), validated-POST body: rate-limit first
(polite rejection, nothing else happens); then sanitize the question,
build the context and prompt; refuse if no API key is configured; invoke
the AI, require non-empty stripped text (otherwise a `ValueError` is
raised and caught); persist the QA record; any exception in the AI/insert
block is logged with its kind and message and surfaced as a transient
service-unavailable flash with nothing persisted. -/
def ask (env : AskEnv) (uid username : String) (rawQ : List Char) : AskResult :=
  let rl := rate_limit_check (dbOf env) uid 10 3600 env.now
  if rl.1 then
    let question := sanitize_input rawQ
    let ud := userDataOf env
    if env.apiKeyPresent then
      match env.gemini (askPrompt env rawQ) with
      | Except.error e =>
          ⟨Outcome.renderAsk Flash.serviceUnavailableError, env.hist,
            rl.2 ++ ud.2 ++ [LogEntry.geminiError e.kind e.msg], 1⟩
      | Except.ok t =>
          let ai_answer := strip t
          if ai_answer = [] then
            ⟨Outcome.renderAsk Flash.serviceUnavailableError, env.hist,
              rl.2 ++ ud.2 ++
                [LogEntry.geminiError "ValueError" "Empty response from Gemini"], 1⟩
          else
            match env.insertFails with
            | some e =>
                ⟨Outcome.renderAsk Flash.serviceUnavailableError, env.hist,
                  rl.2 ++ ud.2 ++ [LogEntry.geminiError e.kind e.msg], 1⟩
            | none =>
                ⟨Outcome.renderResponse question ai_answer,
                  env.hist ++ [⟨uid, username, question, ai_answer, env.now⟩],
                  rl.2 ++ ud.2, 1⟩
    else
      ⟨Outcome.renderAsk Flash.missingKeyError, env.hist,
        rl.2 ++ ud.2 ++ [LogEntry.geminiMissingKey], 0⟩
  else
    ⟨Outcome.renderAsk Flash.rateLimitWarning, env.hist, rl.2, 0⟩

/-! ### Claim theorems for `ask` -/

/-- C3: when the rate-limit check answers false, `ask` renders the
polite try-later warning, leaves the QA history unchanged (no record
inserted) and never invokes the AI collaborator. -/
theorem ask_rate_limited (env : AskEnv) (uid username : String) (rawQ : List Char)
    (h : (rate_limit_check (dbOf env) uid 10 3600 env.now).1 = false) :
    (ask env uid username rawQ).outcome = Outcome.renderAsk Flash.rateLimitWarning
    ∧ (ask env uid username rawQ).hist = env.hist
    ∧ (ask env uid username rawQ).aiCalls = 0 := by
  simp only [ask, h]
  exact ⟨rfl, rfl, rfl⟩

theorem ask_rate_limited_witness :
    (ask ⟨List.replicate 10 ⟨"u", "u", [], [], 9⟩, none, Except.ok none, true,
        fun _ => Except.ok ("ok".data), none, 9⟩ "u" "u" ("hello".data)).outcome
      = Outcome.renderAsk Flash.rateLimitWarning
    ∧ (ask ⟨List.replicate 10 ⟨"u", "u", [], [], 9⟩, none, Except.ok none, true,
        fun _ => Except.ok ("ok".data), none, 9⟩ "u" "u" ("hello".data)).hist
      = List.replicate 10 ⟨"u", "u", [], [], 9⟩
    ∧ (ask ⟨List.replicate 10 ⟨"u", "u", [], [], 9⟩, none, Except.ok none, true,
        fun _ => Except.ok ("ok".data), none, 9⟩ "u" "u" ("hello".data)).aiCalls
      = 0 :=
  ask_rate_limited
    ⟨List.replicate 10 ⟨"u", "u", [], [], 9⟩, none, Except.ok none, true,
      fun _ => Except.ok ("ok".data), none, 9⟩ "u" "u" ("hello".data) (by decide)

/-- C4: when the request is admitted and the key is configured but the
AI collaborator raises or returns text that strips to empty, `ask`
renders the transient service-unavailable flash, persists nothing (the
QA history is unchanged), and logs the failure with its kind and
message (`ValueError` with the fixed message in the empty-text case). -/
theorem ask_ai_failure (env : AskEnv) (uid username : String) (rawQ : List Char)
    (hallow : (rate_limit_check (dbOf env) uid 10 3600 env.now).1 = true)
    (hkey : env.apiKeyPresent = true)
    (hfail : (∃ e, env.gemini (askPrompt env rawQ) = Except.error e)
      ∨ (∃ t, env.gemini (askPrompt env rawQ) = Except.ok t ∧ strip t = [])) :
    (ask env uid username rawQ).outcome = Outcome.renderAsk Flash.serviceUnavailableError
    ∧ (ask env uid username rawQ).hist = env.hist
    ∧ (∀ e, env.gemini (askPrompt env rawQ) = Except.error e →
        LogEntry.geminiError e.kind e.msg ∈ (ask env uid username rawQ).log)
    ∧ (∀ t, env.gemini (askPrompt env rawQ) = Except.ok t → strip t = [] →
        LogEntry.geminiError "ValueError" "Empty response from Gemini"
          ∈ (ask env uid username rawQ).log) := by
  rcases hfail with ⟨e, he⟩ | ⟨t, ht, hts⟩
  · simp only [ask, hallow, hkey, he, if_true]
    refine ⟨trivial, trivial, ?_, ?_⟩
    · intro e2 he2
      injection he2 with h
      subst h
      simp
    · intro t2 ht2
      simp at ht2
  · simp only [ask, hallow, hkey, ht, hts, if_true]
    refine ⟨trivial, trivial, ?_, ?_⟩
    · intro e2 he2
      simp at he2
    · intro t2 ht2 hts2
      simp

theorem ask_ai_failure_witness :
    LogEntry.geminiError "TimeoutError" "boom"
      ∈ (ask ⟨[], none, Except.ok none, true,
          fun _ => Except.error ⟨"TimeoutError", "boom"⟩, none, 5⟩
          "u" "u" ("hi there friend".data)).log := by
  have h := ask_ai_failure
    ⟨[], none, Except.ok none, true,
      fun _ => Except.error ⟨"TimeoutError", "boom"⟩, none, 5⟩
    "u" "u" ("hi there friend".data) (by decide) rfl
    (Or.inl ⟨⟨"TimeoutError", "boom"⟩, rfl⟩)
  exact h.2.2.1 ⟨"TimeoutError", "boom"⟩ rfl

/-- C10: every QA record present after an `ask` invocation either was
already in the history or is the newly persisted record, whose question
field is exactly the sanitized submitted question (hence free of the
four dangerous characters) and whose answer field is non-empty. -/
theorem ask_persists_sanitized (env : AskEnv) (uid username : String)
    (rawQ : List Char) :
    ∀ rec ∈ (ask env uid username rawQ).hist,
      rec ∈ env.hist
      ∨ (rec.question = sanitize_input rawQ
        ∧ (∀ c ∈ rec.question, isBadChar c = false)
        ∧ rec.answer ≠ []) := by
  intro rec hrec
  simp only [ask] at hrec
  by_cases hrl : (rate_limit_check (dbOf env) uid 10 3600 env.now).1
  · simp only [hrl, if_true] at hrec
    by_cases hkey : env.apiKeyPresent
    · simp only [hkey, if_true] at hrec
      cases hg : env.gemini (askPrompt env rawQ) with
      | error e =>
        rw [hg] at hrec
        exact Or.inl hrec
      | ok t =>
        rw [hg] at hrec
        by_cases hts : strip t = []
        · simp only [hts, if_pos rfl] at hrec
          exact Or.inl hrec
        · simp only [if_neg hts] at hrec
          cases hins : env.insertFails with
          | some e =>
            rw [hins] at hrec
            exact Or.inl hrec
          | none =>
            rw [hins] at hrec
            simp only [List.mem_append, List.mem_singleton] at hrec
            rcases hrec with hrec | hrec
            · exact Or.inl hrec
            · subst hrec
              exact Or.inr ⟨rfl, fun c hc => sanitize_input_mem_not_bad rawQ c hc, hts⟩
    · simp only [hkey, if_false] at hrec
      exact Or.inl hrec
  · simp only [Bool.not_eq_true] at hrl
    simp only [hrl, Bool.false_eq_true, if_false] at hrec
    exact Or.inl hrec

theorem ask_persists_sanitized_witness :
    (⟨"u", "u", "hi b".data, "Great answer".data, 9⟩ : QARecord).answer ≠ [] := by
  have h := ask_persists_sanitized
    ⟨[], none, Except.ok none, true,
      fun _ => Except.ok (" Great answer ".data), none, 9⟩
    "u" "u" ("hi <b>".data)
    ⟨"u", "u", "hi b".data, "Great answer".data, 9⟩ (by decide)
  rcases h with h | h
  · exact absurd h (by decide)
  · exact h.2.2

end MHA
